import Mathlib

/-!
Shallow embedding of the custom-protocol callback bridge of libmpv2-rs
(src/mpv/protocol.rs together with the status bridge in src/mpv.rs).

Modelling conventions:
- An application callback that may panic is modelled as a function returning
  `Option _`: `some` is a normal return, `none` is an abnormal termination
  (panic).  `panic::catch_unwind` around a callback body is then the `match`
  on that `Option` performed by each trampoline.
- Mutation through `&mut` references is modelled by explicit state passing:
  a callback receives the current value and returns the updated one.
- The manual allocations of `open_wrapper` (the `alloc::alloc` state block for
  `T` and the `Box::into_raw` dispatch record) are modelled by an explicit
  heap with a bump allocator: `nextAddr` is the next fresh address, the
  `cookieAlloc` / `recAlloc` lists record which addresses are currently
  allocated, and `cookieVal` / `recVal` give their contents (`none` means
  uninitialized or freed).
- C strings crossing the ABI are byte lists (`List Nat`, the bytes up to the
  terminating NUL); `CStr::to_str` is UTF-8 validation on those bytes.
- Dereferencing a raw pointer that is not backed by a live allocation is
  undefined behaviour in the source; the model returns `none` there
  (`close_wrapper` is `Option`-valued for this reason).
-/

namespace Libmpv2

/-- Modelled from the spec: the typed error of the crate.  The errors module
(src/mpv/errors.rs) is absent from the sources; only its uses are visible.
The spec names the scheme-name encoding failure `InvalidName`, and
src/mpv.rs line 35 shows the raw status constructor `Error::Raw(err)`. -/
inductive Error where
  | InvalidName : Error
  | Raw : Int → Error
deriving DecidableEq, Repr

/-- MPV_ERROR_GENERIC from the engine ABI (client.h). -/
def mpv_error.Generic : Int := -20

/-- MPV_ERROR_UNSUPPORTED from the engine ABI (client.h). -/
def mpv_error.Unsupported : Int := -18

/-- The status bridge, src/mpv.rs lines 31-37: `Ok(ret)` when the native
status code is 0, otherwise `Err(Error::Raw(err))`. -/
def mpv_err {α : Type} (ret : α) (err : Int) : Except Error α :=
  if err = 0 then Except.ok ret else Except.error (Error.Raw err)

/-- Application open callback: `fn(&mut U, &str) -> T`, may panic. -/
def StreamOpen (T U : Type) : Type := U → List Nat → Option (T × U)

/-- Application close callback: `fn(Box<T>)`, may panic. -/
def StreamClose (T : Type) : Type := T → Option Unit

/-- Application read callback: `fn(&mut T, &mut [c_char]) -> i64`, may panic. -/
def StreamRead (T : Type) : Type := T → List Int → Option (Int × T)

/-- Application seek callback: `fn(&mut T, i64) -> i64`, may panic. -/
def StreamSeek (T : Type) : Type := T → Int → Option (Int × T)

/-- Application size callback: `fn(&mut T) -> i64`, may panic. -/
def StreamSize (T : Type) : Type := T → Option (Int × T)

/-- Per-instance dispatch record (struct `ProtocolData`, protocol.rs
lines 159-167): pointer to the state block plus the instance's own copies of
the callback references. -/
structure ProtocolData (T U : Type) where
  cookie : Nat
  open_fn : StreamOpen T U
  close_fn : StreamClose T
  read_fn : StreamRead T
  seek_fn : Option (StreamSeek T)
  size_fn : Option (StreamSize T)

/-- Registration-wide data (struct `InitProtocolData`, protocol.rs
lines 149-157): the shared application context plus the callback table. -/
structure InitProtocolData (T U : Type) where
  user_data : U
  open_fn : StreamOpen T U
  close_fn : StreamClose T
  read_fn : StreamRead T
  seek_fn : Option (StreamSeek T)
  size_fn : Option (StreamSize T)

/-- The manual-allocation state of the bridge: a bump allocator over
addresses, with the live state blocks (for `T`) and live dispatch records
tracked separately. -/
structure Heap (T U : Type) where
  nextAddr : Nat
  cookieAlloc : List Nat
  cookieVal : Nat → Option T
  recAlloc : List Nat
  recVal : Nat → Option (ProtocolData T U)

/-- The empty heap: nothing allocated. -/
def emptyHeap {T U : Type} : Heap T U :=
  { nextAddr := 0, cookieAlloc := [], cookieVal := fun _ => none,
    recAlloc := [], recVal := fun _ => none }

/-- Writing through an instance's cookie pointer (`*cookie = v`), as the
read/seek/size dispatches do via `&mut *(*data).cookie`. -/
def Heap.writeCookie {T U : Type} (h : Heap T U) (a : Nat) (t : T) : Heap T U :=
  { h with cookieVal := fun x => if x = a then some t else h.cookieVal x }

/-- Is `b` a UTF-8 continuation byte (0x80..0xBF)? -/
def utf8Cont (b : Nat) : Bool := 0x80 ≤ b && b ≤ 0xBF

/-- UTF-8 validity of a byte sequence, as checked by `str::from_utf8` inside
`CStr::to_str`. -/
def validUtf8 : List Nat → Bool
  | [] => true
  | b :: rest =>
    if b ≤ 0x7F then validUtf8 rest
    else if 0xC2 ≤ b && b ≤ 0xDF then
      match rest with
      | c1 :: r => utf8Cont c1 && validUtf8 r
      | [] => false
    else if b == 0xE0 then
      match rest with
      | c1 :: c2 :: r => (0xA0 ≤ c1 && c1 ≤ 0xBF) && utf8Cont c2 && validUtf8 r
      | _ => false
    else if (0xE1 ≤ b && b ≤ 0xEC) || b == 0xEE || b == 0xEF then
      match rest with
      | c1 :: c2 :: r => utf8Cont c1 && utf8Cont c2 && validUtf8 r
      | _ => false
    else if b == 0xED then
      match rest with
      | c1 :: c2 :: r => (0x80 ≤ c1 && c1 ≤ 0x9F) && utf8Cont c2 && validUtf8 r
      | _ => false
    else if b == 0xF0 then
      match rest with
      | c1 :: c2 :: c3 :: r =>
        (0x90 ≤ c1 && c1 ≤ 0xBF) && utf8Cont c2 && utf8Cont c3 && validUtf8 r
      | _ => false
    else if 0xF1 ≤ b && b ≤ 0xF3 then
      match rest with
      | c1 :: c2 :: c3 :: r => utf8Cont c1 && utf8Cont c2 && utf8Cont c3 && validUtf8 r
      | _ => false
    else if b == 0xF4 then
      match rest with
      | c1 :: c2 :: c3 :: r =>
        (0x80 ≤ c1 && c1 ≤ 0x8F) && utf8Cont c2 && utf8Cont c3 && validUtf8 r
      | _ => false
    else false

/-- The `mpv_cstr_to_str!` macro (src/mpv.rs lines 1-7):
`CStr::from_ptr(p).to_str()`, i.e. UTF-8 validation of the bytes before the
terminating NUL.  `Err` (here `none`) when the bytes are not valid UTF-8. -/
def mpv_cstr_to_str (bytes : List Nat) : Option (List Nat) :=
  if validUtf8 bytes then some bytes else none

/-- Everything `open_wrapper` produces: the status returned to the engine,
the updated shared context, the heap after the dispatch, the cookie stored
into `stream_cb_info` (address of the dispatch record), the address of the
freshly allocated state block, and the number of times the application's
`open_fn` body was entered. -/
structure OpenResult (T U : Type) where
  status : Int
  user_data : U
  heap : Heap T U
  out_cookie : Nat
  new_cookie : Nat
  openCalls : Nat

/-- The open trampoline (protocol.rs lines 22-74).  Allocates the state
block, clones the callback table into a fresh per-instance dispatch record,
stores that record's address into the engine's `stream_cb_info`, then runs
`mpv_cstr_to_str!(uri).unwrap()` and the application's `open_fn` inside
`panic::catch_unwind`, writing the produced `T` into the block on normal
return.  Returns 0 on success and `mpv_error::Generic` when the barrier
caught a panic.  Nothing is deallocated on the failure path. -/
def open_wrapper {T U : Type} (pd : InitProtocolData T U) (uri : List Nat)
    (h : Heap T U) : OpenResult T U :=
  let new_cookie := h.nextAddr
  let h1 : Heap T U :=
    { h with nextAddr := h.nextAddr + 1, cookieAlloc := new_cookie :: h.cookieAlloc }
  let protocol_data_copy : ProtocolData T U :=
    { cookie := new_cookie, open_fn := pd.open_fn, close_fn := pd.close_fn,
      read_fn := pd.read_fn, seek_fn := pd.seek_fn, size_fn := pd.size_fn }
  let protocol_data_raw := h1.nextAddr
  let h2 : Heap T U :=
    { h1 with
      nextAddr := h1.nextAddr + 1,
      recAlloc := protocol_data_raw :: h1.recAlloc,
      recVal := fun a =>
        if a = protocol_data_raw then some protocol_data_copy else h1.recVal a }
  match mpv_cstr_to_str uri with
  | none =>
    { status := mpv_error.Generic, user_data := pd.user_data, heap := h2,
      out_cookie := protocol_data_raw, new_cookie := new_cookie, openCalls := 0 }
  | some s =>
    match pd.open_fn pd.user_data s with
    | some (t, u) =>
      { status := 0, user_data := u,
        heap := { h2 with cookieVal := fun a =>
          if a = new_cookie then some t else h2.cookieVal a },
        out_cookie := protocol_data_raw, new_cookie := new_cookie, openCalls := 1 }
    | none =>
      { status := mpv_error.Generic, user_data := pd.user_data, heap := h2,
        out_cookie := protocol_data_raw, new_cookie := new_cookie, openCalls := 1 }

/-- Result of a read/seek/size dispatch: the i64 returned to the engine, the
instance state after the dispatch, and the number of times the application
callback body was entered. -/
structure DispatchResult (T : Type) where
  ret : Int
  cookie : T
  appCalls : Nat

/-- The buffer slice handed to `read_fn`:
`slice::from_raw_parts_mut(buf, nbytes)` over the raw buffer memory. -/
def read_slice (mem : Nat → Int) (nbytes : Nat) : List Int :=
  (List.range nbytes).map mem

/-- The read trampoline (protocol.rs lines 76-92): builds a slice of exactly
`nbytes` elements, calls `read_fn` on it inside `catch_unwind`, returns the
callback's value on normal return and -1 when it panicked. -/
def read_wrapper {T U : Type} (data : ProtocolData T U) (cookie : T)
    (mem : Nat → Int) (nbytes : Nat) : DispatchResult T :=
  match data.read_fn cookie (read_slice mem nbytes) with
  | some (r, t2) => { ret := r, cookie := t2, appCalls := 1 }
  | none => { ret := -1, cookie := cookie, appCalls := 1 }

/-- The seek trampoline (protocol.rs lines 94-113): `mpv_error::Unsupported`
without touching application code when no `seek_fn` was registered;
otherwise the callback's value, or `mpv_error::Generic` when it panicked. -/
def seek_wrapper {T U : Type} (data : ProtocolData T U) (cookie : T)
    (offset : Int) : DispatchResult T :=
  match data.seek_fn with
  | none => { ret := mpv_error.Unsupported, cookie := cookie, appCalls := 0 }
  | some f =>
    match f cookie offset with
    | some (r, t2) => { ret := r, cookie := t2, appCalls := 1 }
    | none => { ret := mpv_error.Generic, cookie := cookie, appCalls := 1 }

/-- The size trampoline (protocol.rs lines 115-134): `mpv_error::Unsupported`
without touching application code when no `size_fn` was registered;
otherwise the callback's value, or `mpv_error::Unsupported` (not Generic)
when it panicked. -/
def size_wrapper {T U : Type} (data : ProtocolData T U) (cookie : T) :
    DispatchResult T :=
  match data.size_fn with
  | none => { ret := mpv_error.Unsupported, cookie := cookie, appCalls := 0 }
  | some f =>
    match f cookie with
    | some (r, t2) => { ret := r, cookie := t2, appCalls := 1 }
    | none => { ret := mpv_error.Unsupported, cookie := cookie, appCalls := 1 }

/-- Result of a close dispatch: the heap afterwards, the `T` value whose
ownership was handed to `close_fn`, and the number of `close_fn` entries. -/
structure CloseResult (T U : Type) where
  heap : Heap T U
  handed : T
  closeCalls : Nat

/-- The close trampoline (protocol.rs lines 136-147).
`Box::from_raw(wrapper_cookie)` takes back the dispatch record (freed when
it drops), then `close_fn(Box::from_raw(cookie))` hands ownership of the
state block's `T` to the application inside `catch_unwind`; the Box drops —
and the block is freed — whether `close_fn` returns or panics, and a panic
is ignored.  `none` models the undefined behaviour of a dangling cookie. -/
def close_wrapper {T U : Type} (h : Heap T U) (wrapper_cookie : Nat) :
    Option (CloseResult T U) :=
  match h.recVal wrapper_cookie with
  | none => none
  | some data =>
    let h1 : Heap T U :=
      { h with
        recAlloc := h.recAlloc.erase wrapper_cookie,
        recVal := fun a => if a = wrapper_cookie then none else h.recVal a }
    match h1.cookieVal data.cookie with
    | none => none
    | some t =>
      let h2 : Heap T U :=
        { h1 with
          cookieAlloc := h1.cookieAlloc.erase data.cookie,
          cookieVal := fun a => if a = data.cookie then none else h1.cookieVal a }
      match data.close_fn t with
      | some _ => some { heap := h2, handed := t, closeCalls := 1 }
      | none => some { heap := h2, handed := t, closeCalls := 1 }

/-- The `Protocol` object (protocol.rs lines 169-174): the scheme name (as
the bytes of the Rust String) and the registration data. -/
structure Protocol (T U : Type) where
  name : List Nat
  data : InitProtocolData T U

/-- Result of `Protocol::register`: the typed result handed to the caller
and the number of engine registration calls issued. -/
structure RegisterResult where
  result : Except Error Unit
  engineCalls : Nat

/-- `Protocol::register` (protocol.rs lines 221-234):
`CString::new(&self.name[..])?` fails — before any engine call — when the
name bytes contain an interior NUL; otherwise the engine registration call
`mpv_stream_cb_add_ro` is issued and its status is put through `mpv_err`.
`engineRet` is the status the engine returns to that call. -/
def Protocol.register {T U : Type} (p : Protocol T U) (engineRet : Int) :
    RegisterResult :=
  if p.name.contains 0 then
    { result := Except.error Error.InvalidName, engineCalls := 0 }
  else
    { result := mpv_err () engineRet, engineCalls := 1 }

/-! Concrete sample data used by the witnesses. -/

/-- A registration whose callbacks all return normally. -/
def okInit : InitProtocolData Unit Unit :=
  { user_data := (), open_fn := fun u _ => some ((), u),
    close_fn := fun _ => some (), read_fn := fun t _ => some (0, t),
    seek_fn := some (fun t off => some (off, t)),
    size_fn := some (fun t => some (10, t)) }

/-- A registration whose callbacks all panic. -/
def panicInit : InitProtocolData Unit Unit :=
  { user_data := (), open_fn := fun _ _ => none,
    close_fn := fun _ => none, read_fn := fun _ _ => none,
    seek_fn := some (fun _ _ => none), size_fn := some (fun _ => none) }

/-- A dispatch record whose callbacks all panic. -/
def panicData : ProtocolData Unit Unit :=
  { cookie := 0, open_fn := fun _ _ => none, close_fn := fun _ => none,
    read_fn := fun _ _ => none, seek_fn := some (fun _ _ => none),
    size_fn := some (fun _ => none) }

/-- A dispatch record registered without seek_fn and size_fn. -/
def noSeekData : ProtocolData Unit Unit :=
  { cookie := 0, open_fn := fun u _ => some ((), u), close_fn := fun _ => some (),
    read_fn := fun t _ => some (0, t), seek_fn := none, size_fn := none }

/-- A dispatch record whose callbacks all return normally, with a seek that
returns the requested offset and a size of 10. -/
def okData : ProtocolData Unit Unit :=
  { cookie := 0, open_fn := fun u _ => some ((), u), close_fn := fun _ => some (),
    read_fn := fun t _ => some (0, t),
    seek_fn := some (fun t off => some (off, t)),
    size_fn := some (fun t => some (10, t)) }

/-- A protocol whose scheme name bytes contain an interior NUL. -/
def nulNameProto : Protocol Unit Unit := { name := [102, 0, 111], data := okInit }

/-- A protocol with a NUL-free scheme name. -/
def goodNameProto : Protocol Unit Unit := { name := [102, 111, 111], data := okInit }

/-- A heap holding one successfully opened instance: state block at address 0
(initialized), dispatch record at address 1 pointing at it, with panicking
callbacks. -/
def oneInstanceHeap : Heap Unit Unit :=
  { nextAddr := 2, cookieAlloc := [0],
    cookieVal := fun a => if a = 0 then some () else none,
    recAlloc := [1],
    recVal := fun a => if a = 1 then some panicData else none }

/-! The claims. -/

/-- Shape of the open trampoline's heap effect, independent of the branch
taken: the state block is allocated at the old bump pointer, the dispatch
record right after it, the record holds copies of the callback references
and the fresh block's address, and no other state block's contents change. -/
theorem open_wrapper_addrs {T U : Type} (pd : InitProtocolData T U)
    (uri : List Nat) (h : Heap T U) :
    (open_wrapper pd uri h).new_cookie = h.nextAddr ∧
    (open_wrapper pd uri h).out_cookie = h.nextAddr + 1 ∧
    (open_wrapper pd uri h).heap.nextAddr = h.nextAddr + 2 ∧
    (open_wrapper pd uri h).heap.cookieAlloc = h.nextAddr :: h.cookieAlloc ∧
    (open_wrapper pd uri h).heap.recAlloc = (h.nextAddr + 1) :: h.recAlloc ∧
    (∀ a, (open_wrapper pd uri h).heap.recVal a =
      if a = h.nextAddr + 1 then
        some { cookie := h.nextAddr, open_fn := pd.open_fn,
               close_fn := pd.close_fn, read_fn := pd.read_fn,
               seek_fn := pd.seek_fn, size_fn := pd.size_fn }
      else h.recVal a) ∧
    (∀ a, a ≠ h.nextAddr →
      (open_wrapper pd uri h).heap.cookieVal a = h.cookieVal a) := by
  unfold open_wrapper
  cases hu : mpv_cstr_to_str uri with
  | none => simp
  | some s =>
    cases ho : pd.open_fn pd.user_data s with
    | none => simp [ho]
    | some tu =>
      obtain ⟨t, u⟩ := tu
      refine ⟨by simp [ho], by simp [ho], by simp [ho], by simp [ho],
        by simp [ho], fun a => by simp [ho], fun a ha => ?_⟩
      simp [ho, ha]

/-- Claim C9: the status bridge yields Ok(ret) exactly when the native code
is 0, and otherwise an error carrying the integer status code unchanged. -/
theorem mpv_err_spec {α : Type} (ret : α) (err : Int) :
    (mpv_err ret err = Except.ok ret ↔ err = 0) ∧
    (err ≠ 0 → mpv_err ret err = Except.error (Error.Raw err)) := by
  unfold mpv_err
  by_cases h : err = 0
  · simp [h]
  · simp [h]

/-- Witness for C9 at concrete inputs ret = 7, err = 0 and err = -20. -/
theorem mpv_err_spec_witness :
    mpv_err (7 : Nat) 0 = Except.ok 7 ∧
    mpv_err (7 : Nat) (-20) = Except.error (Error.Raw (-20)) := by
  constructor
  · exact (mpv_err_spec (7 : Nat) 0).1.mpr rfl
  · exact (mpv_err_spec (7 : Nat) (-20)).2 (by decide)

/-- Claim C10: an open dispatch whose locator bytes are not valid UTF-8
returns the generic-error status and the application's open_fn is never
entered (the conversion failure panics inside the barrier). -/
theorem open_wrapper_invalid_utf8 {T U : Type} (pd : InitProtocolData T U)
    (uri : List Nat) (h : Heap T U) (hbad : validUtf8 uri = false) :
    (open_wrapper pd uri h).status = mpv_error.Generic ∧
    (open_wrapper pd uri h).openCalls = 0 := by
  unfold open_wrapper
  simp [mpv_cstr_to_str, hbad]

/-- Witness for C10 at the concrete locator byte 0x80 (a lone continuation
byte, not valid UTF-8). -/
theorem open_wrapper_invalid_utf8_witness :
    (open_wrapper okInit [128] emptyHeap).status = mpv_error.Generic ∧
    (open_wrapper okInit [128] emptyHeap).openCalls = 0 :=
  open_wrapper_invalid_utf8 okInit [128] emptyHeap (by decide)

/-- Claim C3: the read trampoline hands read_fn a buffer slice of exactly
the engine-supplied nbytes elements; on normal return it returns exactly
read_fn's value, and when read_fn panics it returns exactly -1. -/
theorem read_wrapper_exact {T U : Type} (data : ProtocolData T U) (t : T)
    (mem : Nat → Int) (nbytes : Nat) :
    (read_slice mem nbytes).length = nbytes ∧
    (∀ r t2, data.read_fn t (read_slice mem nbytes) = some (r, t2) →
      read_wrapper data t mem nbytes = { ret := r, cookie := t2, appCalls := 1 }) ∧
    (data.read_fn t (read_slice mem nbytes) = none →
      read_wrapper data t mem nbytes = { ret := -1, cookie := t, appCalls := 1 }) := by
  refine ⟨by simp [read_slice], ?_, ?_⟩
  · intro r t2 hr
    unfold read_wrapper
    simp [hr]
  · intro hr
    unfold read_wrapper
    simp [hr]

/-- Witness for C3 at a 4-byte buffer: a normally returning read_fn and a
panicking one. -/
theorem read_wrapper_exact_witness :
    (read_slice (fun _ => 0) 4).length = 4 ∧
    read_wrapper noSeekData () (fun _ => 0) 4 =
      { ret := 0, cookie := (), appCalls := 1 } ∧
    read_wrapper panicData () (fun _ => 0) 4 =
      { ret := -1, cookie := (), appCalls := 1 } :=
  ⟨(read_wrapper_exact noSeekData () (fun _ => 0) 4).1,
   (read_wrapper_exact noSeekData () (fun _ => 0) 4).2.1 0 () rfl,
   (read_wrapper_exact panicData () (fun _ => 0) 4).2.2 rfl⟩

/-- Claim C4: with no seek_fn registered the seek trampoline returns the
unsupported status with zero application-level seek invocations; with one
registered it returns exactly seek_fn's value on normal return and the
generic-error status when seek_fn panics. -/
theorem seek_wrapper_spec {T U : Type} (data : ProtocolData T U) (t : T)
    (off : Int) :
    (data.seek_fn = none →
      seek_wrapper data t off =
        { ret := mpv_error.Unsupported, cookie := t, appCalls := 0 }) ∧
    (∀ f r t2, data.seek_fn = some f → f t off = some (r, t2) →
      seek_wrapper data t off = { ret := r, cookie := t2, appCalls := 1 }) ∧
    (∀ f, data.seek_fn = some f → f t off = none →
      seek_wrapper data t off =
        { ret := mpv_error.Generic, cookie := t, appCalls := 1 }) := by
  refine ⟨?_, ?_, ?_⟩
  · intro hn
    unfold seek_wrapper
    simp [hn]
  · intro f r t2 hf hr
    unfold seek_wrapper
    simp [hf, hr]
  · intro f hf hr
    unfold seek_wrapper
    simp [hf, hr]

/-- Witness for C4 at offset 7: absent seek_fn, normally returning seek_fn,
and panicking seek_fn. -/
theorem seek_wrapper_spec_witness :
    seek_wrapper noSeekData () 7 =
      { ret := mpv_error.Unsupported, cookie := (), appCalls := 0 } ∧
    seek_wrapper okData () 7 = { ret := 7, cookie := (), appCalls := 1 } ∧
    seek_wrapper panicData () 7 =
      { ret := mpv_error.Generic, cookie := (), appCalls := 1 } :=
  ⟨(seek_wrapper_spec noSeekData () 7).1 rfl,
   (seek_wrapper_spec okData () 7).2.1 (fun t off => some (off, t)) 7 () rfl rfl,
   (seek_wrapper_spec panicData () 7).2.2 (fun _ _ => none) rfl rfl⟩

/-- Claim C5: with no size_fn registered the size trampoline returns the
unsupported status without invoking application code; with one registered
it returns exactly size_fn's value on normal return, and when size_fn
panics it returns the unsupported status (not the generic-error status). -/
theorem size_wrapper_spec {T U : Type} (data : ProtocolData T U) (t : T) :
    (data.size_fn = none →
      size_wrapper data t =
        { ret := mpv_error.Unsupported, cookie := t, appCalls := 0 }) ∧
    (∀ f r t2, data.size_fn = some f → f t = some (r, t2) →
      size_wrapper data t = { ret := r, cookie := t2, appCalls := 1 }) ∧
    (∀ f, data.size_fn = some f → f t = none →
      size_wrapper data t =
        { ret := mpv_error.Unsupported, cookie := t, appCalls := 1 }) := by
  refine ⟨?_, ?_, ?_⟩
  · intro hn
    unfold size_wrapper
    simp [hn]
  · intro f r t2 hf hr
    unfold size_wrapper
    simp [hf, hr]
  · intro f hf hr
    unfold size_wrapper
    simp [hf, hr]

/-- Witness for C5: absent size_fn, normally returning size_fn, and
panicking size_fn. -/
theorem size_wrapper_spec_witness :
    size_wrapper noSeekData () =
      { ret := mpv_error.Unsupported, cookie := (), appCalls := 0 } ∧
    size_wrapper okData () = { ret := 10, cookie := (), appCalls := 1 } ∧
    size_wrapper panicData () =
      { ret := mpv_error.Unsupported, cookie := (), appCalls := 1 } :=
  ⟨(size_wrapper_spec noSeekData ()).1 rfl,
   (size_wrapper_spec okData ()).2.1 (fun t => some (10, t)) 10 () rfl rfl,
   (size_wrapper_spec panicData ()).2.2 (fun _ => none) rfl rfl⟩

/-- Claim C8: Protocol::register fails with the typed InvalidName error and
issues no engine call when the scheme name bytes contain an interior NUL;
otherwise it issues exactly one engine registration call and pipes the
engine's status through mpv_err, so a rejection surfaces as the raw typed
error with no local state changed. -/
theorem register_spec {T U : Type} (p : Protocol T U) (engineRet : Int) :
    (p.name.contains 0 = true →
      p.register engineRet =
        { result := Except.error Error.InvalidName, engineCalls := 0 }) ∧
    (p.name.contains 0 = false →
      (p.register engineRet).engineCalls = 1 ∧
      (p.register engineRet).result = mpv_err () engineRet ∧
      (engineRet ≠ 0 →
        (p.register engineRet).result = Except.error (Error.Raw engineRet))) := by
  constructor
  · intro hc
    have hm : 0 ∈ p.name := by simpa using hc
    simp [Protocol.register, hm]
  · intro hc
    have hm : 0 ∉ p.name := by simpa using hc
    refine ⟨by simp [Protocol.register, hm], by simp [Protocol.register, hm], ?_⟩
    intro hr
    simp [Protocol.register, hm, mpv_err, hr]

/-- Witness for C8: a name with an interior NUL, and a clean name whose
registration the engine rejects with status -4. -/
theorem register_spec_witness :
    nulNameProto.register 0 =
      { result := Except.error Error.InvalidName, engineCalls := 0 } ∧
    (goodNameProto.register (-4)).engineCalls = 1 ∧
    (goodNameProto.register (-4)).result = Except.error (Error.Raw (-4)) :=
  ⟨(register_spec nulNameProto 0).1 (by decide),
   ((register_spec goodNameProto (-4)).2 (by decide)).1,
   ((register_spec goodNameProto (-4)).2 (by decide)).2.2 (by decide)⟩

/-- Claim C1: for every trampoline, a panicking application callback still
gives a normal return to the engine with the defined value: open yields the
generic error, read yields -1, seek yields the generic error, size yields
the unsupported status, and close returns (no status to report). -/
theorem trampoline_panic_barrier {T U : Type} :
    (∀ (pd : InitProtocolData T U) (uri : List Nat) (h : Heap T U),
      validUtf8 uri = true → pd.open_fn pd.user_data uri = none →
      (open_wrapper pd uri h).status = mpv_error.Generic) ∧
    (∀ (data : ProtocolData T U) (t : T) (mem : Nat → Int) (nbytes : Nat),
      data.read_fn t (read_slice mem nbytes) = none →
      (read_wrapper data t mem nbytes).ret = -1) ∧
    (∀ (data : ProtocolData T U) (t : T) (off : Int) (f : StreamSeek T),
      data.seek_fn = some f → f t off = none →
      (seek_wrapper data t off).ret = mpv_error.Generic) ∧
    (∀ (data : ProtocolData T U) (t : T) (f : StreamSize T),
      data.size_fn = some f → f t = none →
      (size_wrapper data t).ret = mpv_error.Unsupported) ∧
    (∀ (h : Heap T U) (addr : Nat) (d : ProtocolData T U) (t : T),
      h.recVal addr = some d → h.cookieVal d.cookie = some t →
      d.close_fn t = none → (close_wrapper h addr).isSome = true) := by
  refine ⟨?_, ?_, ?_, ?_, ?_⟩
  · intro pd uri h hok hp
    unfold open_wrapper
    simp [mpv_cstr_to_str, hok, hp]
  · intro data t mem nbytes hp
    unfold read_wrapper
    simp [hp]
  · intro data t off f hf hp
    unfold seek_wrapper
    simp [hf, hp]
  · intro data t f hf hp
    unfold size_wrapper
    simp [hf, hp]
  · intro h addr d t hrec hck hp
    unfold close_wrapper
    simp [hrec, hck, hp]

/-- Witness for C1: a panicking open on the empty locator, panicking
read/seek/size dispatches, and a panicking close on a live instance. -/
theorem trampoline_panic_barrier_witness :
    (open_wrapper panicInit [] emptyHeap).status = mpv_error.Generic ∧
    (read_wrapper panicData () (fun _ => 0) 4).ret = -1 ∧
    (seek_wrapper panicData () 3).ret = mpv_error.Generic ∧
    (size_wrapper panicData ()).ret = mpv_error.Unsupported ∧
    (close_wrapper oneInstanceHeap 1).isSome = true := by
  obtain ⟨h1, h2, h3, h4, h5⟩ := trampoline_panic_barrier (T := Unit) (U := Unit)
  exact ⟨h1 panicInit [] emptyHeap rfl rfl,
    h2 panicData () (fun _ => 0) 4 rfl,
    h3 panicData () 3 (fun _ _ => none) rfl rfl,
    h4 panicData () (fun _ => none) rfl rfl,
    h5 oneInstanceHeap 1 panicData () rfl rfl rfl⟩

/-- Claim C6: closing a successfully opened instance hands ownership of the
stored T to close_fn exactly once and, whether close_fn returns normally or
panics, both per-instance allocations — the dispatch record and the state
block — are released by the end of the close trampoline. -/
theorem close_wrapper_releases {T U : Type} (h : Heap T U) (addr : Nat)
    (d : ProtocolData T U) (t : T) (hrec : h.recVal addr = some d)
    (hck : h.cookieVal d.cookie = some t) (hndR : h.recAlloc.Nodup)
    (hndC : h.cookieAlloc.Nodup) :
    ∃ res, close_wrapper h addr = some res ∧ res.handed = t ∧
      res.closeCalls = 1 ∧ addr ∉ res.heap.recAlloc ∧
      d.cookie ∉ res.heap.cookieAlloc ∧ res.heap.recVal addr = none ∧
      res.heap.cookieVal d.cookie = none := by
  unfold close_wrapper
  simp only [hrec, hck]
  cases hcf : d.close_fn t with
  | none =>
    exact ⟨_, rfl, rfl, rfl, hndR.not_mem_erase, hndC.not_mem_erase,
      by simp, by simp⟩
  | some u =>
    exact ⟨_, rfl, rfl, rfl, hndR.not_mem_erase, hndC.not_mem_erase,
      by simp, by simp⟩

/-- Witness for C6 on a heap holding one live instance whose close_fn
panics. -/
theorem close_wrapper_releases_witness :
    (close_wrapper oneInstanceHeap 1).isSome = true ∧
    (∀ res, close_wrapper oneInstanceHeap 1 = some res →
      1 ∉ res.heap.recAlloc ∧ 0 ∉ res.heap.cookieAlloc) := by
  obtain ⟨res, hres, -, -, hr, hc, -, -⟩ :=
    close_wrapper_releases oneInstanceHeap 1 panicData () rfl rfl
      (by decide) (by decide)
  refine ⟨by rw [hres]; rfl, ?_⟩
  intro res2 hres2
  rw [hres] at hres2
  cases hres2
  exact ⟨hr, hc⟩

/-- The heap and registration state after a second open dispatch under the
same registration (the registration's context carries the update made by
the first open). -/
def secondOpen {T U : Type} (pd : InitProtocolData T U) (uri1 uri2 : List Nat)
    (h : Heap T U) : OpenResult T U :=
  open_wrapper { pd with user_data := (open_wrapper pd uri1 h).user_data }
    uri2 (open_wrapper pd uri1 h).heap

/-- Claim C7: two open dispatches under the same registration allocate
pairwise disjoint state blocks and dispatch records, each record holds its
own copies of the callback references and the address of its own fresh
block, and writing one instance's state block never changes the other's. -/
theorem open_instances_disjoint {T U : Type} (pd : InitProtocolData T U)
    (uri1 uri2 : List Nat) (h : Heap T U) (t : T) :
    (open_wrapper pd uri1 h).new_cookie ≠ (secondOpen pd uri1 uri2 h).new_cookie ∧
    (open_wrapper pd uri1 h).out_cookie ≠ (secondOpen pd uri1 uri2 h).out_cookie ∧
    (open_wrapper pd uri1 h).new_cookie ≠ (secondOpen pd uri1 uri2 h).out_cookie ∧
    (open_wrapper pd uri1 h).out_cookie ≠ (secondOpen pd uri1 uri2 h).new_cookie ∧
    (secondOpen pd uri1 uri2 h).heap.recVal (open_wrapper pd uri1 h).out_cookie =
      some { cookie := (open_wrapper pd uri1 h).new_cookie, open_fn := pd.open_fn,
             close_fn := pd.close_fn, read_fn := pd.read_fn,
             seek_fn := pd.seek_fn, size_fn := pd.size_fn } ∧
    (secondOpen pd uri1 uri2 h).heap.recVal (secondOpen pd uri1 uri2 h).out_cookie =
      some { cookie := (secondOpen pd uri1 uri2 h).new_cookie, open_fn := pd.open_fn,
             close_fn := pd.close_fn, read_fn := pd.read_fn,
             seek_fn := pd.seek_fn, size_fn := pd.size_fn } ∧
    ((secondOpen pd uri1 uri2 h).heap.writeCookie
        (secondOpen pd uri1 uri2 h).new_cookie t).cookieVal
        (open_wrapper pd uri1 h).new_cookie =
      (secondOpen pd uri1 uri2 h).heap.cookieVal (open_wrapper pd uri1 h).new_cookie ∧
    ((secondOpen pd uri1 uri2 h).heap.writeCookie
        (open_wrapper pd uri1 h).new_cookie t).cookieVal
        (secondOpen pd uri1 uri2 h).new_cookie =
      (secondOpen pd uri1 uri2 h).heap.cookieVal (secondOpen pd uri1 uri2 h).new_cookie := by
  obtain ⟨a1, a2, a3, -, -, arec, -⟩ := open_wrapper_addrs pd uri1 h
  obtain ⟨b1, b2, b3, -, -, brec, -⟩ :=
    open_wrapper_addrs { pd with user_data := (open_wrapper pd uri1 h).user_data }
      uri2 (open_wrapper pd uri1 h).heap
  unfold secondOpen
  rw [a3] at b1 b2 brec
  refine ⟨by rw [a1, b1]; omega, by rw [a2, b2]; omega, by rw [a1, b2]; omega,
    by rw [a2, b1]; omega, ?_, ?_, ?_, ?_⟩
  · rw [brec, a2, if_neg (by omega), arec, a1, if_pos rfl]
  · rw [b2, brec, if_pos rfl, b1]
  · rw [Heap.writeCookie, a1, b1]
    simp only []
    rw [if_neg (by omega)]
  · rw [Heap.writeCookie, a1, b1]
    simp only []
    rw [if_neg (by omega)]

/-- Claim C2, evaluated at a panicking open dispatch: the status returned
is the generic error and the state block is never initialized, but neither
the state block nor the dispatch record has been released when the
trampoline returns — both addresses are still allocated, so the partially
constructed per-instance allocations leak instead of being released. -/
theorem open_panic_leaks_allocations :
    (open_wrapper panicInit [] emptyHeap).status = mpv_error.Generic ∧
    (open_wrapper panicInit [] emptyHeap).heap.cookieVal
      (open_wrapper panicInit [] emptyHeap).new_cookie = none ∧
    (open_wrapper panicInit [] emptyHeap).new_cookie ∈
      (open_wrapper panicInit [] emptyHeap).heap.cookieAlloc ∧
    (open_wrapper panicInit [] emptyHeap).out_cookie ∈
      (open_wrapper panicInit [] emptyHeap).heap.recAlloc := by
  decide

end Libmpv2
